import Mathlib

/-!
# OnboardIQ chat client — verification of the conversation session manager

Shallow embedding of the conversation session manager of the OnboardIQ
RAG assistant frontend (`ChatInterface` component and its `api` service
module), together with proofs of the specified properties.

The embedding models:
* the `Message` / `Citation` data model of the transcript;
* `sendQuery` / `submitFeedback` request construction (`services/api.js`);
* `handleSend` (the `ask` operation), split into the synchronous phase up
  to the `await` of the backend call (`handleSendStart`) and the resumption
  after the backend call resolves (`handleSendFinish`); the backend outcome
  is passed in as an explicit `Except` value;
* `handleFeedback` (the `rate` operation);
* the pure text-building part of `downloadChat` (the `render` operation).

JavaScript primitives used by the source (`String.prototype.trim`,
`toUpperCase`, `Number.prototype.toFixed`, truthiness tests) are modelled
explicitly below; numbers that the source holds as floating-point scores in
[0,1] are modelled as exact rationals.
-/

namespace OnboardIQ

/-- Boolean prefix test on character lists (helper for the substring test). -/
def isPrefixB : List Char → List Char → Bool
  | [], _ => true
  | _ :: _, [] => false
  | a :: as, b :: bs => (a == b) && isPrefixB as bs

/-- Boolean substring test on character lists. -/
def isInfixB (pat : List Char) : List Char → Bool
  | [] => isPrefixB pat []
  | c :: rest => isPrefixB pat (c :: rest) || isInfixB pat rest

/-- Models JavaScript `String.prototype.trim`: strip leading and trailing
whitespace. -/
def jsTrim (s : String) : String :=
  String.mk (((s.data.dropWhile Char.isWhitespace).reverse.dropWhile
    Char.isWhitespace).reverse)

/-- Models JavaScript `String.prototype.toUpperCase` on the ASCII role
labels used by the source. -/
def jsToUpperCase (s : String) : String :=
  String.mk (s.data.map Char.toUpper)

/-- Models the JavaScript expression `(x * 100).toFixed(0)` for a score
`x ≥ 0` held as an exact rational: multiply by 100 and round to the nearest
integer, rendered in decimal. -/
def pctFixed0 (x : ℚ) : String :=
  toString (Int.fdiv (200 * x.num + (x.den : ℤ)) (2 * (x.den : ℤ))).toNat

/-- Models the JavaScript expression `(x * 100).toFixed(1)` for a score
`x ≥ 0` held as an exact rational: multiply by 100 and round to one decimal
place, rendered with exactly one digit after the point. -/
def pctFixed1 (x : ℚ) : String :=
  let n : ℕ := (Int.fdiv (2000 * x.num + (x.den : ℤ)) (2 * (x.den : ℤ))).toNat
  toString (n / 10) ++ "." ++ toString (n % 10)

/-- Role of a transcript message; the source stores it as the string
`"user"` or `"assistant"`. -/
inductive Role
  | user
  | assistant
deriving DecidableEq

/-- The string stored in the `role` field by the source. -/
def Role.toStr : Role → String
  | .user => "user"
  | .assistant => "assistant"

/-- One citation record of a backend answer
(`{source_id, file_name, page_number, relevance_score}`). -/
structure Citation where
  source_id : String
  file_name : String
  page_number : ℕ
  relevance_score : ℚ
deriving DecidableEq

/-- One transcript message, as built by `handleSend`.  Fields the source
leaves `undefined` on some messages (`citations`, `confidence`, `isError`)
are `Option`s, `none` meaning the field is absent from the object. -/
structure Message where
  role : Role
  content : String
  timestamp : String
  citations : Option (List Citation) := none
  confidence : Option ℚ := none
  isError : Option Bool := none
deriving DecidableEq

/-- The keys present when a `Message` object is JSON-serialized for an HTTP
request body: keys whose value is `undefined` are omitted by the
serializer, all others are kept. -/
def msgJsonFields (m : Message) : List String :=
  ["role", "content", "timestamp"]
    ++ (if m.citations.isSome then ["citations"] else [])
    ++ (if m.confidence.isSome then ["confidence"] else [])
    ++ (if m.isError.isSome then ["isError"] else [])

/-- A successful `POST /chat/query` response body
(`{answer, citations, confidence}`); `citations` / `confidence` may be
absent from the payload. -/
structure ChatResponse where
  answer : String
  citations : Option (List Citation) := none
  confidence : Option ℚ := none
deriving DecidableEq

/-- The request body built by `sendQuery` in `services/api.js`:
`{query, conversation_history, top_k}`.  The source passes the
`messages` array itself as `conversation_history`, so the entries are
whole `Message` objects. -/
structure ChatRequest where
  query : String
  conversation_history : List Message
  top_k : ℕ
deriving DecidableEq

/-- The request body built by `submitFeedback` in `services/api.js`:
`{query, answer, rating}`. -/
structure FeedbackRequest where
  query : String
  answer : String
  rating : String
deriving DecidableEq

/-- `sendQuery(query, conversationHistory)` from `services/api.js`:
posts `{query, conversation_history: conversationHistory, top_k: 5}`. -/
def sendQuery (query : String) (conversationHistory : List Message) :
    ChatRequest :=
  { query := query, conversation_history := conversationHistory, top_k := 5 }

/-- `submitFeedback(query, answer, rating)` from `services/api.js`. -/
def submitFeedback (query answer rating : String) : FeedbackRequest :=
  { query := query, answer := answer, rating := rating }

/-- The component state of `ChatInterface` that `handleSend` reads and
writes: `messages`, `input`, `loading`, `language`. -/
structure ChatState where
  messages : List Message
  input : String
  loading : Bool
  language : String
deriving DecidableEq

/-- The `languagePrompt` constant of `handleSend`: the instruction fragment
prepended when the selected language is not English, the empty string
otherwise. -/
def languagePromptFor (language : String) : String :=
  if language ≠ "English" then "Please answer in " ++ language ++ ". " else ""

/-- The user message object built by `handleSend`
(`{role: 'user', content: text, timestamp}`). -/
def mkUserMessage (text ts : String) : Message :=
  { role := .user, content := text, timestamp := ts }

/-- The assistant message object built by `handleSend` on success
(`{role: 'assistant', content: response.answer, citations, confidence,
timestamp}`). -/
def mkAssistantMessage (r : ChatResponse) (ts : String) : Message :=
  { role := .assistant, content := r.answer, citations := r.citations,
    confidence := r.confidence, timestamp := ts }

/-- The fixed apology text of the synthetic failure message. -/
def errorContent : String :=
  "Sorry, I encountered an error. Please ensure documents are uploaded and backend server is running."

/-- The assistant message object built by `handleSend` in its `catch`
block (`{role: 'assistant', content: apology, timestamp, isError: true}`). -/
def mkErrorMessage (ts : String) : Message :=
  { role := .assistant, content := errorContent, timestamp := ts,
    isError := some true }

/-- The synchronous phase of `handleSend(text)` up to the `await` of
`sendQuery`: the guard clauses (`!text.trim() || loading`, `!isOnline`),
the optimistic append of the user message, the clearing of the input, the
raising of the `loading` flag, and the construction of the outbound
request.  Returns the state at the suspension point, and the request that
is sent (`none` when the call is rejected before any network interaction).
Note that the request's `conversation_history` is the `messages` value
captured by the closure, i.e. the transcript BEFORE the user append: React
state updates are not visible to the already-running function body. -/
def handleSendStart (isOnline : Bool) (ts : String) (text : String)
    (st : ChatState) : ChatState × Option ChatRequest :=
  if jsTrim text = "" ∨ st.loading = true then (st, none)
  else if isOnline = false then (st, none)
  else
    ({ st with
        messages := st.messages ++ [mkUserMessage text ts],
        input := "",
        loading := true },
      some (sendQuery (languagePromptFor st.language ++ text) st.messages))

/-- The resumption of `handleSend` after the backend call resolves: the
`try` continuation on success, the `catch` block on failure, and the
`finally` block (`setLoading(false)`) in both cases. -/
def handleSendFinish (resp : Except Unit ChatResponse) (ts : String)
    (st : ChatState) : ChatState :=
  match resp with
  | .ok r =>
      { st with messages := st.messages ++ [mkAssistantMessage r ts],
                loading := false }
  | .error _ =>
      { st with messages := st.messages ++ [mkErrorMessage ts],
                loading := false }

/-- A whole `handleSend(text)` call run to completion: the synchronous
phase, then — only if a request was actually sent — the resumption with the
backend outcome `resp`.  `ts1`/`ts2` are the two `new Date().toISOString()`
values. -/
def handleSend (isOnline : Bool) (resp : Except Unit ChatResponse)
    (ts1 ts2 text : String) (st : ChatState) : ChatState × Option ChatRequest :=
  match handleSendStart isOnline ts1 text st with
  | (st1, none) => (st1, none)
  | (st1, some req) => (handleSendFinish resp ts2 st1, some req)

/-- The message appended by the resumption: the success message or the
synthetic error message, depending on the backend outcome. -/
def finishMessage (resp : Except Unit ChatResponse) (ts : String) : Message :=
  match resp with
  | .ok r => mkAssistantMessage r ts
  | .error _ => mkErrorMessage ts

/-- One `ask` call of a sequential scenario: its text, its backend outcome,
and the two timestamps. -/
structure AskCall where
  text : String
  resp : Except Unit ChatResponse
  ts1 : String
  ts2 : String

/-- A sequence of `handleSend` calls issued strictly one at a time with the
backend online: each call is awaited to completion before the next starts. -/
def askFold (calls : List AskCall) (st : ChatState) : ChatState :=
  calls.foldl (fun s c => (handleSend true c.resp c.ts1 c.ts2 c.text s).1) st

/-- `handleFeedback(message, rating)`: resolves
`messages.filter(m => m.role === 'user').slice(-1)[0]?.content || ''`
and submits `(userQuery, message.content, rating)`. -/
def handleFeedback (messages : List Message) (message : Message)
    (rating : String) : FeedbackRequest :=
  submitFeedback
    (((((messages.filter (fun m => m.role == Role.user)).getLast?).map
      Message.content).getD ""))
    message.content rating

/-- Modelled from the spec ("resolves the most recent preceding user
Message as the associated query"): the content of the most recent user
Message strictly before position `i` of the transcript, or the empty string
if there is none. -/
def specPrecedingUserQuery (messages : List Message) (i : ℕ) : String :=
  (((((messages.take i).filter (fun m => m.role == Role.user)).getLast?).map
    Message.content).getD "")

/-- The content of the most recent user Message anywhere in the transcript
(empty string if there is none), written as a right-to-left search. -/
def latestUserQuery (messages : List Message) : String :=
  (((messages.reverse.find? (fun m => m.role == Role.user)).map
    Message.content).getD "")

/-- `'='.repeat(70)`. -/
def sepEq : String := String.mk (List.replicate 70 '=')

/-- `'-'.repeat(70)`. -/
def sepDash : String := String.mk (List.replicate 70 '-')

/-- One citation line pair of the export
(`  - file - Page n` / `    Relevance: p%`). -/
def renderCitation (c : Citation) : String :=
  "  - " ++ c.file_name ++ " - Page " ++ toString c.page_number ++ "\n"
    ++ "    Relevance: " ++ pctFixed1 c.relevance_score ++ "%\n"

/-- The `Sources Referenced` block of one exported message; the source
guards it with `msg.citations && msg.citations.length > 0`. -/
def citationsBlock (m : Message) : String :=
  match m.citations with
  | some cs =>
      if cs.length > 0 then
        "\nSources Referenced:\n" ++ String.join (cs.map renderCitation)
      else ""
  | none => ""

/-- The confidence line of one exported message; the source guards it with
the truthiness test `if (msg.confidence)`, which also skips a present score
of exactly 0. -/
def confidenceLine (m : Message) : String :=
  match m.confidence with
  | some c =>
      if c.num = 0 then ""
      else "\nConfidence Score: " ++ pctFixed0 c ++ "%\n"
  | none => ""

/-- The text appended for one message by the `messages.forEach` loop of
`downloadChat`. -/
def renderMessage (m : Message) : String :=
  jsToUpperCase m.role.toStr ++ ":\n" ++ m.content ++ "\n"
    ++ citationsBlock m ++ confidenceLine m
    ++ "\n" ++ sepDash ++ "\n\n"

/-- The header block of the export. -/
def renderHeader (timestamp language : String) : String :=
  "OnboardIQ - Chat Session Export\n"
    ++ "Downloaded: " ++ timestamp ++ "\n"
    ++ "Language: " ++ language ++ "\n"
    ++ sepEq ++ "\n\n"

/-- The `Session Statistics` footer of the export. -/
def renderFooter (messages : List Message) : String :=
  "\nSession Statistics:\n"
    ++ "Total Messages: " ++ toString messages.length ++ "\n"
    ++ "Questions Asked: "
      ++ toString (messages.filter (fun m => m.role == Role.user)).length ++ "\n"
    ++ "Answers Provided: "
      ++ toString (messages.filter (fun m => m.role == Role.assistant)).length
      ++ "\n"

/-- The pure text-building part of `downloadChat`: `none` models the early
return (`messages.length === 0`), otherwise the full export text (header,
one block per message in transcript order, footer).  The Blob/DOM download
plumbing of the source is outside the model. -/
def downloadChat (timestamp language : String) (messages : List Message) :
    Option String :=
  if messages.length = 0 then none
  else
    some (renderHeader timestamp language
      ++ String.join (messages.map renderMessage)
      ++ renderFooter messages)

/-! ## Helper lemmas -/

theorem append_ne_empty_of_left_ne (a b : String) (h : a.data ≠ []) :
    a ++ b ≠ "" := by
  intro he
  apply h
  have hd : (a ++ b).data = [] := by rw [he]
  rw [String.data_append] at hd
  exact (List.append_eq_nil.mp hd).1

theorem data_append_ne (a b : String) (h : a.data ≠ []) :
    (a ++ b).data ≠ [] := by
  rw [String.data_append]
  intro hd
  exact h (List.append_eq_nil.mp hd).1

theorem handleSendStart_eq (text ts : String) (st : ChatState)
    (h1 : jsTrim text ≠ "") (h2 : st.loading = false) :
    handleSendStart true ts text st =
      ({ st with
          messages := st.messages ++ [mkUserMessage text ts],
          input := "",
          loading := true },
        some (sendQuery (languagePromptFor st.language ++ text) st.messages)) := by
  have hc : ¬ (jsTrim text = "" ∨ st.loading = true) := by simp [h1, h2]
  simp [handleSendStart, hc]

theorem handleSendFinish_eq (resp : Except Unit ChatResponse) (ts : String)
    (st : ChatState) :
    handleSendFinish resp ts st =
      { st with messages := st.messages ++ [finishMessage resp ts],
                loading := false } := by
  cases resp <;> rfl

theorem handleSend_complete (resp : Except Unit ChatResponse)
    (ts1 ts2 text : String) (st : ChatState)
    (h1 : jsTrim text ≠ "") (h2 : st.loading = false) :
    handleSend true resp ts1 ts2 text st =
      ({ st with
          messages :=
            st.messages ++ [mkUserMessage text ts1, finishMessage resp ts2],
          input := "",
          loading := false },
        some (sendQuery (languagePromptFor st.language ++ text) st.messages)) := by
  rw [handleSend, handleSendStart_eq text ts1 st h1 h2]
  simp [handleSendFinish_eq]

theorem askFold_cons (c : AskCall) (cs : List AskCall) (st : ChatState) :
    askFold (c :: cs) st
      = askFold cs ((handleSend true c.resp c.ts1 c.ts2 c.text st).1) := rfl

theorem askFold_spec (calls : List AskCall) :
    ∀ st : ChatState, st.loading = false →
      (∀ c ∈ calls, jsTrim c.text ≠ "") →
      (askFold calls st).messages.length
          = st.messages.length + 2 * calls.length
        ∧ (askFold calls st).loading = false := by
  induction calls with
  | nil =>
    intro st h _
    exact ⟨by simp [askFold], by simpa [askFold] using h⟩
  | cons c cs ih =>
    intro st h hc
    rw [askFold_cons,
      handleSend_complete c.resp c.ts1 c.ts2 c.text st (hc c (by simp)) h]
    obtain ⟨L, F⟩ :=
      ih { st with
            messages :=
              st.messages ++ [mkUserMessage c.text c.ts1,
                finishMessage c.resp c.ts2],
            input := "",
            loading := false }
        rfl (fun d hd => hc d (by simp [hd]))
    refine ⟨?_, F⟩
    rw [L]
    simp
    omega

theorem filter_getLast?_eq_find?_reverse {α : Type} (p : α → Bool)
    (l : List α) : (l.filter p).getLast? = l.reverse.find? p := by
  induction l using List.reverseRecOn with
  | nil => rfl
  | append_singleton l a ih =>
    by_cases h : p a = true
    · simp [List.filter_append, List.reverse_append, h,
        List.find?_cons_of_pos _ h, List.getLast?_concat]
    · simp [List.filter_append, List.reverse_append, h,
        List.find?_cons_of_neg _ h, ih]

theorem role_filter_count (l : List Message) :
    (l.filter (fun m => m.role == Role.user)).length
      + (l.filter (fun m => m.role == Role.assistant)).length = l.length := by
  induction l with
  | nil => rfl
  | cons m l ih =>
    cases hm : m.role <;>
      simp [List.filter_cons, hm] <;> omega

theorem citationsBlock_none (m : Message) (h : m.citations = none) :
    citationsBlock m = "" := by
  simp [citationsBlock, h]

theorem citationsBlock_some_nil (m : Message) (h : m.citations = some []) :
    citationsBlock m = "" := by
  simp [citationsBlock, h]

theorem citationsBlock_some_cons (m : Message) (c : Citation)
    (rest : List Citation) (h : m.citations = some (c :: rest)) :
    citationsBlock m = "\nSources Referenced:\n"
      ++ String.join ((c :: rest).map renderCitation) := by
  simp [citationsBlock, h]

theorem confidenceLine_none (m : Message) (h : m.confidence = none) :
    confidenceLine m = "" := by
  simp [confidenceLine, h]

theorem confidenceLine_some_zero (m : Message) (c : ℚ)
    (h : m.confidence = some c) (hz : c.num = 0) :
    confidenceLine m = "" := by
  simp [confidenceLine, h, hz]

theorem confidenceLine_some_ne (m : Message) (c : ℚ)
    (h : m.confidence = some c) (hz : c.num ≠ 0) :
    confidenceLine m = "\nConfidence Score: " ++ pctFixed0 c ++ "%\n" := by
  simp [confidenceLine, h, hz]

/-! ## Concrete fixtures used by witnesses and counterexamples -/

/-- An initial session state: empty transcript, idle dispatcher. -/
def st0 : ChatState :=
  { messages := [], input := "", loading := false, language := "English" }

/-- A successful sequential call. -/
def callA : AskCall :=
  { text := "hello", resp := .ok { answer := "hi there" },
    ts1 := "t1", ts2 := "t2" }

/-- A failing sequential call. -/
def callB : AskCall :=
  { text := "again", resp := .error (), ts1 := "t3", ts2 := "t4" }

/-- `0.87` as an exact rational. -/
def qConf : ℚ := ⟨87, 100, by decide, by decide⟩

/-- `0.91` as an exact rational. -/
def qRel : ℚ := ⟨91, 100, by decide, by decide⟩

def exportU1 : Message :=
  { role := .user, content := "How many leave days?", timestamp := "t1" }

def hrCitation : Citation :=
  { source_id := "1", file_name := "hr.pdf", page_number := 4,
    relevance_score := qRel }

def exportA1 : Message :=
  { role := .assistant, content := "You get 24 days.", timestamp := "t2",
    citations := some [hrCitation], confidence := some qConf }

def exportU2 : Message :=
  { role := .user, content := "Thanks", timestamp := "t3" }

/-- The fixed three-message transcript of the round-trip scenario. -/
def exportTranscript : List Message := [exportU1, exportA1, exportU2]

/-- A transcript whose last user message follows the rated assistant
message. -/
def msgU1 : Message :=
  { role := .user, content := "What is the dress code?", timestamp := "f1" }

def msgA1 : Message :=
  { role := .assistant, content := "Business casual.", timestamp := "f2" }

def msgU2 : Message :=
  { role := .user, content := "Thanks", timestamp := "f3" }

def feedbackTranscript : List Message := [msgU1, msgA1, msgU2]

/-- An assistant message carrying a present confidence score of exactly 0. -/
def zeroConfMsg : Message :=
  { role := .assistant, content := "All set.", timestamp := "t0",
    confidence := some 0 }

/-- A transcript entry with a timestamp, as every message built by
`handleSend` has. -/
def histMsg : Message :=
  { role := .user, content := "hi", timestamp := "2024-01-01T00:00:00.000Z" }

/-- A session state holding one prior message. -/
def stWithHistory : ChatState :=
  { messages := [histMsg], input := "", loading := false,
    language := "English" }

/-! ## Claims -/

/-- C1: for every sequence of `ask` calls issued strictly one at a time
(each awaited to completion, non-empty trimmed text, backend online), each
completed call increases the transcript length by exactly 2; the user
message is appended before any network interaction (the outbound request
carries only the prior transcript) and one assistant message is appended on
completion, whether the backend call succeeds or fails. -/
theorem ask_sequence_two_appends (calls : List AskCall) (st : ChatState)
    (resp : Except Unit ChatResponse) (ts1 ts2 text : String)
    (hl : st.loading = false) (hc : ∀ c ∈ calls, jsTrim c.text ≠ "")
    (ht : jsTrim text ≠ "") :
    ((askFold calls st).messages.length
        = st.messages.length + 2 * calls.length
      ∧ (askFold calls st).loading = false)
    ∧ ((handleSend true resp ts1 ts2 text st).1.messages
        = st.messages ++ [mkUserMessage text ts1, finishMessage resp ts2]
      ∧ (mkUserMessage text ts1).role = Role.user
      ∧ (finishMessage resp ts2).role = Role.assistant
      ∧ (handleSend true resp ts1 ts2 text st).2
          = some (sendQuery (languagePromptFor st.language ++ text)
              st.messages)) := by
  refine ⟨askFold_spec calls st hl hc, ?_, rfl, ?_, ?_⟩
  · rw [handleSend_complete resp ts1 ts2 text st ht hl]
  · cases resp <;> rfl
  · rw [handleSend_complete resp ts1 ts2 text st ht hl]

theorem ask_sequence_two_appends_witness :
    (((askFold [callA, callB] st0).messages.length
        = st0.messages.length + 2 * [callA, callB].length)
      ∧ (askFold [callA, callB] st0).loading = false)
    ∧ ((handleSend true (.error ()) "x" "y" "hi" st0).1.messages
        = st0.messages
            ++ [mkUserMessage "hi" "x", finishMessage (.error ()) "y"]
      ∧ (mkUserMessage "hi" "x").role = Role.user
      ∧ (finishMessage (.error ()) "y").role = Role.assistant
      ∧ (handleSend true (.error ()) "x" "y" "hi" st0).2
          = some (sendQuery (languagePromptFor st0.language ++ "hi")
              st0.messages)) :=
  ask_sequence_two_appends [callA, callB] st0 (.error ()) "x" "y" "hi"
    (by decide) (by decide) (by decide)

/-- C2: while one `ask` call is awaiting the backend, a second `ask`
invocation leaves the state unchanged and sends nothing, so the in-flight
call resumes from an unaffected state; completion (success or failure)
releases the in-flight lock, after which a further `ask` with valid input
proceeds again. -/
theorem ask_inflight_exclusion (st : ChatState)
    (t1 t2 t3 ts1 ts2 ts3 ts4 : String) (o2 : Bool)
    (resp : Except Unit ChatResponse)
    (h1 : jsTrim t1 ≠ "") (h2 : st.loading = false) (h3 : jsTrim t3 ≠ "") :
    ∃ st1 req, handleSendStart true ts1 t1 st = (st1, some req)
      ∧ st1.loading = true
      ∧ handleSendStart o2 ts2 t2 st1 = (st1, none)
      ∧ handleSendFinish resp ts3 ((handleSendStart o2 ts2 t2 st1).1)
          = handleSendFinish resp ts3 st1
      ∧ (handleSendFinish resp ts3 st1).loading = false
      ∧ ((handleSendStart true ts4 t3
          (handleSendFinish resp ts3 st1)).2).isSome = true := by
  refine ⟨_, _, handleSendStart_eq t1 ts1 st h1 h2, rfl, ?_, ?_, ?_, ?_⟩
  · simp [handleSendStart]
  · simp [handleSendStart]
  · simp [handleSendFinish_eq]
  · rw [handleSendFinish_eq, handleSendStart_eq t3 ts4 _ h3 rfl]
    rfl

theorem ask_inflight_exclusion_witness :
    ∃ st1 req, handleSendStart true "a" "q1" st0 = (st1, some req)
      ∧ st1.loading = true
      ∧ handleSendStart false "b" "q2" st1 = (st1, none)
      ∧ handleSendFinish (.ok { answer := "ans" }) "c"
            ((handleSendStart false "b" "q2" st1).1)
          = handleSendFinish (.ok { answer := "ans" }) "c" st1
      ∧ (handleSendFinish (.ok { answer := "ans" }) "c" st1).loading = false
      ∧ ((handleSendStart true "d" "q3"
          (handleSendFinish (.ok { answer := "ans" }) "c" st1)).2).isSome
          = true :=
  ask_inflight_exclusion st0 "q1" "q2" "q3" "a" "b" "c" "d" false
    (.ok { answer := "ans" }) (by decide) (by decide) (by decide)

/-- C3: when the backend call of an `ask` fails, the transcript ends with
an assistant message whose content is the fixed apology string, whose
`isError` flag is `true` and which carries no citations; `handleSend`
still returns normally (the failure is absorbed by the `catch` block and
never propagated to the caller). -/
theorem ask_failure_apology (st : ChatState) (text ts1 ts2 : String)
    (h1 : jsTrim text ≠ "") (h2 : st.loading = false) :
    ((handleSend true (.error ()) ts1 ts2 text st).1.messages.getLast?
        = some (mkErrorMessage ts2))
    ∧ (mkErrorMessage ts2).role = Role.assistant
    ∧ (mkErrorMessage ts2).content = errorContent
    ∧ (mkErrorMessage ts2).isError = some true
    ∧ (mkErrorMessage ts2).citations = none
    ∧ (handleSend true (.error ()) ts1 ts2 text st).1.loading = false := by
  rw [handleSend_complete _ _ _ _ _ h1 h2]
  refine ⟨?_, rfl, rfl, rfl, rfl, rfl⟩
  have hsplit :
      st.messages ++ [mkUserMessage text ts1,
          finishMessage (Except.error ()) ts2]
        = (st.messages ++ [mkUserMessage text ts1])
            ++ [finishMessage (Except.error ()) ts2] := by
    simp
  show (st.messages ++ [mkUserMessage text ts1,
      finishMessage (Except.error ()) ts2]).getLast? = _
  rw [hsplit, List.getLast?_concat]
  rfl

theorem ask_failure_apology_witness :
    ((handleSend true (.error ()) "x" "y" "test" st0).1.messages.getLast?
        = some (mkErrorMessage "y"))
    ∧ (mkErrorMessage "y").role = Role.assistant
    ∧ (mkErrorMessage "y").content = errorContent
    ∧ (mkErrorMessage "y").isError = some true
    ∧ (mkErrorMessage "y").citations = none
    ∧ (handleSend true (.error ()) "x" "y" "test" st0).1.loading = false :=
  ask_failure_apology st0 "test" "x" "y" (by decide) (by decide)

/-- C4 (amended): for every `ask` call that reaches the network step, the
request posted to `/chat/query` carries the augmented query text, the prior
transcript, and the fixed `top_k = 5`; the history entries are, however,
the whole `Message` objects of the transcript — each serialized entry
contains `role` and `content` but also always a `timestamp` field (plus any
`citations` / `confidence` / `isError` fields present), not exactly the
fields `role` and `content`. -/
theorem ask_request_full_message_objects (st : ChatState) (text ts : String)
    (h1 : jsTrim text ≠ "") (h2 : st.loading = false) :
    ∃ st1 req, handleSendStart true ts text st = (st1, some req)
      ∧ req.query = languagePromptFor st.language ++ text
      ∧ req.top_k = 5
      ∧ req.conversation_history = st.messages
      ∧ ∀ m ∈ req.conversation_history,
          "role" ∈ msgJsonFields m ∧ "content" ∈ msgJsonFields m
            ∧ "timestamp" ∈ msgJsonFields m := by
  refine ⟨_, _, handleSendStart_eq text ts st h1 h2, rfl, rfl, rfl, ?_⟩
  intro m _
  refine ⟨?_, ?_, ?_⟩ <;> simp [msgJsonFields]

theorem ask_request_full_message_objects_witness :
    ∃ st1 req, handleSendStart true "t" "next question" stWithHistory
        = (st1, some req)
      ∧ req.query = languagePromptFor stWithHistory.language
          ++ "next question"
      ∧ req.top_k = 5
      ∧ req.conversation_history = stWithHistory.messages
      ∧ ∀ m ∈ req.conversation_history,
          "role" ∈ msgJsonFields m ∧ "content" ∈ msgJsonFields m
            ∧ "timestamp" ∈ msgJsonFields m :=
  ask_request_full_message_objects stWithHistory "next question" "t"
    (by decide) (by decide)

/-- C4 counterexample: the history entry transmitted for a prior message is
the whole `Message` object, whose serialization carries a `timestamp` field
— so it does not consist of exactly the fields `role` and `content`. -/
theorem ask_request_role_content_counterexample :
    ((handleSendStart true "t" "next question" stWithHistory).2).map
        (fun r => r.conversation_history) = some [histMsg]
    ∧ "timestamp" ∈ msgJsonFields histMsg
    ∧ "timestamp" ∉ (["role", "content"] : List String) := by
  decide

/-- C5: for every `ask(text, language)` call that reaches the network step,
the outbound query is the language-instruction fragment naming the selected
language prepended to the raw text when the language is not English, and
the raw text unchanged when it is English. -/
theorem ask_language_augmentation (st : ChatState) (text ts : String)
    (h1 : jsTrim text ≠ "") (h2 : st.loading = false) :
    ∃ st1 req, handleSendStart true ts text st = (st1, some req)
      ∧ (st.language ≠ "English" →
          req.query = "Please answer in " ++ st.language ++ ". " ++ text)
      ∧ (st.language = "English" → req.query = text) := by
  refine ⟨_, _, handleSendStart_eq text ts st h1 h2, ?_, ?_⟩
  · intro hne
    show languagePromptFor st.language ++ text = _
    rw [languagePromptFor, if_pos hne]
  · intro he
    show languagePromptFor st.language ++ text = text
    rw [languagePromptFor, if_neg (fun hcon => hcon he)]
    rfl

theorem ask_language_augmentation_witness :
    ∃ st1 req, handleSendStart true "t" "hola"
        { messages := [], input := "", loading := false,
          language := "Spanish" } = (st1, some req)
      ∧ ("Spanish" ≠ "English" →
          req.query = "Please answer in " ++ "Spanish" ++ ". " ++ "hola")
      ∧ ("Spanish" = "English" → req.query = "hola") :=
  ask_language_augmentation
    { messages := [], input := "", loading := false, language := "Spanish" }
    "hola" "t" (by decide) (by decide)

/-- C6: an `ask` whose text trims to the empty string, or issued while the
backend is flagged offline, returns the state unchanged (no transcript
mutation) and sends no request. -/
theorem ask_empty_or_offline_no_mutation (o : Bool)
    (resp : Except Unit ChatResponse) (ts1 ts2 text : String)
    (st : ChatState) :
    (jsTrim text = "" → handleSend o resp ts1 ts2 text st = (st, none))
    ∧ (o = false → handleSend o resp ts1 ts2 text st = (st, none)) := by
  constructor
  · intro h
    simp [handleSend, handleSendStart, h]
  · intro h
    subst h
    by_cases hc : jsTrim text = "" ∨ st.loading = true
    · simp [handleSend, handleSendStart, hc]
    · simp [handleSend, handleSendStart, hc]

theorem ask_empty_or_offline_no_mutation_witness :
    (handleSend true (.error ()) "x" "y" "   " st0 = (st0, none))
    ∧ (handleSend false (.error ()) "x" "y" "hi" st0 = (st0, none)) :=
  ⟨(ask_empty_or_offline_no_mutation true (.error ()) "x" "y" "   " st0).1
      (by decide),
    (ask_empty_or_offline_no_mutation false (.error ()) "x" "y" "hi" st0).2
      rfl⟩

/-- C7 counterexample: rating the assistant message at position 1 of a
transcript whose last user message comes after it submits the content of
that later user message ("Thanks"), not the content of the most recent user
message preceding the rated one ("What is the dress code?"). -/
theorem rate_preceding_user_counterexample :
    feedbackTranscript[1]? = some msgA1
    ∧ msgA1.role = Role.assistant
    ∧ specPrecedingUserQuery feedbackTranscript 1 = "What is the dress code?"
    ∧ (handleFeedback feedbackTranscript msgA1 "positive").query = "Thanks"
    ∧ (handleFeedback feedbackTranscript msgA1 "positive").query
        ≠ specPrecedingUserQuery feedbackTranscript 1 := by
  decide

/-- C7 (amended): for every `rate(message, rating)` call on an assistant
message of the transcript, the submitted payload is
`(query, message.content, rating)` where `query` is the content of the most
recent user message of the whole transcript (not necessarily one preceding
the rated message), or the empty string if the transcript has no user
message; the transcript stores raw question text, so the query is never the
language-augmented variant. -/
theorem rate_submits_latest_user_query (messages : List Message)
    (message : Message) (rating : String)
    (_hm : message ∈ messages) (_hr : message.role = Role.assistant) :
    handleFeedback messages message rating =
      { query := latestUserQuery messages, answer := message.content,
        rating := rating } := by
  unfold handleFeedback submitFeedback latestUserQuery
  rw [filter_getLast?_eq_find?_reverse]

theorem rate_submits_latest_user_query_witness :
    handleFeedback feedbackTranscript msgA1 "positive" =
      { query := latestUserQuery feedbackTranscript,
        answer := msgA1.content, rating := "positive" } :=
  rate_submits_latest_user_query feedbackTranscript msgA1 "positive"
    (by decide) (by decide)

set_option maxRecDepth 40000 in
/-- C8 counterexample: an assistant message with a present confidence score
of exactly 0 renders without any confidence line — the source's truthiness
guard `if (msg.confidence)` skips it — so the render output does not
contain a confidence line exactly when confidence is present. -/
theorem render_confidence_truthiness_counterexample :
    zeroConfMsg.confidence.isSome = true
    ∧ confidenceLine zeroConfMsg = ""
    ∧ isInfixB "Confidence Score".data
        (((downloadChat "t" "English" [zeroConfMsg]).getD "").data) = false := by
  decide

/-- C8 (amended): for every non-empty transcript whose roles are user and
assistant, the render output is the header, then exactly N blocks in
transcript order — each starting with the upper-cased role label and the
content, with a "Sources Referenced" block exactly when citations are
present AND non-empty, and a confidence line exactly when confidence is
present AND non-zero — and a footer whose user and assistant counts sum to
N. -/
theorem render_structure (ts lang : String) (messages : List Message)
    (hne : messages ≠ []) :
    downloadChat ts lang messages
        = some (renderHeader ts lang
            ++ String.join (messages.map renderMessage)
            ++ renderFooter messages)
      ∧ (messages.map renderMessage).length = messages.length
      ∧ (∀ m ∈ messages, ∃ rest,
          renderMessage m
            = jsToUpperCase m.role.toStr ++ ":\n" ++ m.content ++ rest)
      ∧ (∀ m ∈ messages,
          (citationsBlock m ≠ "" ↔ ∃ cs, m.citations = some cs ∧ cs ≠ []))
      ∧ (∀ m ∈ messages,
          (confidenceLine m ≠ "" ↔ ∃ c, m.confidence = some c ∧ c ≠ 0))
      ∧ (messages.filter (fun m => m.role == Role.user)).length
          + (messages.filter (fun m => m.role == Role.assistant)).length
          = messages.length := by
  refine ⟨?_, by simp, ?_, ?_, ?_, role_filter_count messages⟩
  · rw [downloadChat, if_neg (by simpa using hne)]
  · intro m _
    refine ⟨"\n" ++ citationsBlock m ++ confidenceLine m
      ++ "\n" ++ sepDash ++ "\n\n", ?_⟩
    simp [renderMessage, String.append_assoc]
  · intro m _
    constructor
    · intro hbl
      rcases hcit : m.citations with _ | cs
      · exact absurd (citationsBlock_none m hcit) hbl
      · rcases cs with _ | ⟨c, rest⟩
        · exact absurd (citationsBlock_some_nil m hcit) hbl
        · exact ⟨c :: rest, rfl, by simp⟩
    · rintro ⟨cs, hcit, hcs⟩
      rcases cs with _ | ⟨c, rest⟩
      · exact absurd rfl hcs
      · rw [citationsBlock_some_cons m c rest hcit]
        exact append_ne_empty_of_left_ne _ _ (by decide)
  · intro m _
    constructor
    · intro hbl
      rcases hcf : m.confidence with _ | c
      · exact absurd (confidenceLine_none m hcf) hbl
      · refine ⟨c, rfl, ?_⟩
        intro hc0
        exact hbl (confidenceLine_some_zero m c hcf (by subst hc0; decide))
    · rintro ⟨c, hcf, hc0⟩
      rw [confidenceLine_some_ne m c hcf
        (fun h => hc0 (Rat.zero_of_num_zero h))]
      exact append_ne_empty_of_left_ne _ _ (data_append_ne _ _ (by decide))

theorem render_structure_witness :
    downloadChat "t" "English" exportTranscript
        = some (renderHeader "t" "English"
            ++ String.join (exportTranscript.map renderMessage)
            ++ renderFooter exportTranscript)
      ∧ (exportTranscript.map renderMessage).length = exportTranscript.length
      ∧ (∀ m ∈ exportTranscript, ∃ rest,
          renderMessage m
            = jsToUpperCase m.role.toStr ++ ":\n" ++ m.content ++ rest)
      ∧ (∀ m ∈ exportTranscript,
          (citationsBlock m ≠ "" ↔ ∃ cs, m.citations = some cs ∧ cs ≠ []))
      ∧ (∀ m ∈ exportTranscript,
          (confidenceLine m ≠ "" ↔ ∃ c, m.confidence = some c ∧ c ≠ 0))
      ∧ (exportTranscript.filter (fun m => m.role == Role.user)).length
          + (exportTranscript.filter
              (fun m => m.role == Role.assistant)).length
          = exportTranscript.length :=
  render_structure "t" "English" exportTranscript (by decide)

set_option maxRecDepth 80000 in
/-- C9: for the fixed three-message transcript (user "How many leave
days?", assistant with confidence 0.87 and one citation on hr.pdf page 4
with relevance 0.91, user "Thanks"), the render output contains the
substring "87%" for the confidence and the substring "91.0%" for the
citation relevance. -/
theorem export_shows_percentages :
    isInfixB "87%".data
        (((downloadChat "t" "English" exportTranscript).getD "").data) = true
    ∧ isInfixB "91.0%".data
        (((downloadChat "t" "English" exportTranscript).getD "").data)
        = true := by
  decide

/-- C10: for every `ask` call that reaches the network step, the
conversation history placed in the request is the transcript exactly as it
was before this call's user message was appended — the current question
enters the state but not the transmitted history. -/
theorem ask_history_prior_transcript (st : ChatState) (text ts : String)
    (h1 : jsTrim text ≠ "") (h2 : st.loading = false) :
    handleSendStart true ts text st =
      ({ st with
          messages := st.messages ++ [mkUserMessage text ts],
          input := "",
          loading := true },
        some (sendQuery (languagePromptFor st.language ++ text)
          st.messages))
    ∧ (sendQuery (languagePromptFor st.language ++ text)
        st.messages).conversation_history = st.messages := by
  exact ⟨handleSendStart_eq text ts st h1 h2, rfl⟩

theorem ask_history_prior_transcript_witness :
    handleSendStart true "t" "next question" stWithHistory =
      ({ stWithHistory with
          messages := stWithHistory.messages
            ++ [mkUserMessage "next question" "t"],
          input := "",
          loading := true },
        some (sendQuery
          (languagePromptFor stWithHistory.language ++ "next question")
          stWithHistory.messages))
    ∧ (sendQuery
        (languagePromptFor stWithHistory.language ++ "next question")
        stWithHistory.messages).conversation_history
        = stWithHistory.messages :=
  ask_history_prior_transcript stWithHistory "next question" "t"
    (by decide) (by decide)

end OnboardIQ
